import Mathlib

/-!
# observability-demo: `go-otel-demo/main.go`

A shallow embedding of the Go program `main.go`:

* the two provider constructors `setupTracerProvider` / `setupMeterProvider`
  and the start-up prefix of `main` (up to the launch of `server.Listen`),
  as functions over the process-wide provider registry;
* the request handler `otelDemoHandler` as a function producing the list of
  effects it performs and the response;
* the shutdown sequence of `main` (lines 173-204) as an interleaving step
  function over the coordinator and the three shutdown goroutines.

Calls into external libraries (exporter constructors, `Shutdown` methods,
`rand.Intn`) are inputs of the model.
-/

namespace OtelDemo

/-! ## Errors -/

/-- Go `error` values: a plain error, or one made by `fmt.Errorf("...%w", err)`,
which carries its text and the error it wraps. -/
inductive GoError where
  | plain (text : String)
  | wrapped (text : String) (inner : GoError)
  deriving DecidableEq, Repr

/-- The `Error()` method. -/
def GoError.Error : GoError → String
  | .plain t => t
  | .wrapped t _ => t

/-- The `Unwrap()` method (`errors.Unwrap`). -/
def GoError.Unwrap : GoError → Option GoError
  | .plain _ => none
  | .wrapped _ e => some e

/-- Models `fmt.Errorf(pfx + "%w", err)`: the text is `pfx` followed by the
text of `err`, and the result unwraps to `err`. -/
def errorfW (pfx : String) (err : GoError) : GoError :=
  .wrapped (pfx ++ err.Error) err

/-! ## Exporter selection (lines 30-39, 62-118) -/

/-- Go: `type ExporterType int`. -/
abbrev ExporterType := Int

def ExporterConsoleType : ExporterType := 0
def ExporterGRPCType : ExporterType := 1

/-- The exporter constructors called by the program. -/
inductive ExporterCtor where
  | stdouttraceNew
  | otlptracegrpcNew
  | stdoutmetricNew
  | otlpmetricgrpcNew
  deriving DecidableEq, Repr

/-- The options passed to the exporter constructors. -/
inductive ExporterOption where
  | withPrettyPrint
  | withInsecure
  deriving DecidableEq, Repr

/-- One constructor call: which constructor, with which options. -/
structure ExporterCall where
  ctor : ExporterCtor
  opts : List ExporterOption
  deriving DecidableEq, Repr

/-- Whether a constructor builds a network (OTLP gRPC) client. -/
def ExporterCtor.isNetwork : ExporterCtor → Bool
  | .otlptracegrpcNew => true
  | .otlpmetricgrpcNew => true
  | _ => false

/-- An exporter value, identified by the call that built it. -/
structure Exporter where
  builtBy : ExporterCall
  deriving DecidableEq, Repr

/-- The library side of exporter construction: for each call, the error it
returns (`none` is Go `nil`). -/
structure ExporterLib where
  newErr : ExporterCall → Option GoError

/-- The pair `(exporter, err)` a constructor call returns. -/
def ExporterLib.new (lib : ExporterLib) (c : ExporterCall) : Option Exporter × Option GoError :=
  match lib.newErr c with
  | none => (some ⟨c⟩, none)
  | some e => (none, some e)

/-- Line 65: `stdouttrace.New(stdouttrace.WithPrettyPrint())`. -/
def traceConsoleCall : ExporterCall := ⟨.stdouttraceNew, [.withPrettyPrint]⟩
/-- Lines 67-70: `otlptracegrpc.New(ctx, otlptracegrpc.WithInsecure())`. -/
def traceGRPCCall : ExporterCall := ⟨.otlptracegrpcNew, [.withInsecure]⟩
/-- Line 94: `stdoutmetric.New()`. -/
def metricConsoleCall : ExporterCall := ⟨.stdoutmetricNew, []⟩
/-- Lines 96-99: `otlpmetricgrpc.New(ctx, otlpmetricgrpc.WithInsecure())`. -/
def metricGRPCCall : ExporterCall := ⟨.otlpmetricgrpcNew, [.withInsecure]⟩

/-- Resource attributes: `resource.WithAttributes(semconv.ServiceName("otel-demo"))`. -/
abbrev Resource := List (String × String)

def demoResource : Resource := [("service.name", "otel-demo")]

/-- Value of `sdktrace.NewTracerProvider(WithBatcher(traceExp), WithResource(res))`. -/
structure TracerProvider where
  batcherExporter : Option Exporter
  resource : Resource
  deriving DecidableEq, Repr

/-- Value of `sdkmetric.NewMeterProvider(WithReader(NewPeriodicReader(metricExp)), WithResource(res))`. -/
structure MeterProvider where
  periodicReaderExporter : Option Exporter
  resource : Resource
  deriving DecidableEq, Repr

/-- The process-wide registry written by `otel.SetTracerProvider` and
`otel.SetMeterProvider`; `none` means nothing has been installed. -/
structure Globals where
  tracerProvider : Option TracerProvider
  meterProvider : Option MeterProvider
  deriving DecidableEq, Repr

/-- The registry at process start. -/
def Globals.initial : Globals := ⟨none, none⟩

/-- Effects observable during start-up, in program order. -/
inductive StartupEvent where
  | newExporter (c : ExporterCall)
  | setTracerProvider
  | setMeterProvider
  | logFatal (msg : String) (err : GoError)
  | logInfo (msg : String)
  | routeGet (path : String)
  | goServerListen (addr : String)
  deriving DecidableEq, Repr

/-- Result of a `setup...Provider` call: the returned pair `(handle, err)`,
the registry afterwards and the effects performed. -/
structure SetupResult (α : Type) where
  handle : Option α
  err : Option GoError
  globals : Globals
  events : List StartupEvent

/-- Lines 62-89. -/
def setupTracerProvider (lib : ExporterLib) (otelExporterType : ExporterType)
    (g : Globals) : SetupResult TracerProvider :=
  -- traceExp, err := stdouttrace.New(stdouttrace.WithPrettyPrint())
  let r0 := lib.new traceConsoleCall
  let ev0 := [StartupEvent.newExporter traceConsoleCall]
  -- if otelExporterType == ExporterGRPCType { traceExp, err = otlptracegrpc.New(...) }
  let r1 := if otelExporterType = ExporterGRPCType then lib.new traceGRPCCall else r0
  let ev1 := if otelExporterType = ExporterGRPCType
    then ev0 ++ [StartupEvent.newExporter traceGRPCCall] else ev0
  match r1.2 with
  | some err =>
    -- return nil, fmt.Errorf("failed to create trace exporter: %w", err)
    { handle := none, err := some (errorfW "failed to create trace exporter: " err),
      globals := g, events := ev1 }
  | none =>
    let tp : TracerProvider := { batcherExporter := r1.1, resource := demoResource }
    -- otel.SetTracerProvider(tp); return tp, nil
    { handle := some tp, err := none,
      globals := { g with tracerProvider := some tp },
      events := ev1 ++ [StartupEvent.setTracerProvider] }

/-- Lines 91-118. -/
def setupMeterProvider (lib : ExporterLib) (otelExporterType : ExporterType)
    (g : Globals) : SetupResult MeterProvider :=
  -- metricExp, err := stdoutmetric.New()
  let r0 := lib.new metricConsoleCall
  let ev0 := [StartupEvent.newExporter metricConsoleCall]
  -- if otelExporterType == ExporterGRPCType { metricExp, err = otlpmetricgrpc.New(...) }
  let r1 := if otelExporterType = ExporterGRPCType then lib.new metricGRPCCall else r0
  let ev1 := if otelExporterType = ExporterGRPCType
    then ev0 ++ [StartupEvent.newExporter metricGRPCCall] else ev0
  match r1.2 with
  | some err =>
    -- return nil, fmt.Errorf("failed to create metric exporter: %w", err)
    { handle := none, err := some (errorfW "failed to create metric exporter: " err),
      globals := g, events := ev1 }
  | none =>
    let mp : MeterProvider := { periodicReaderExporter := r1.1, resource := demoResource }
    -- otel.SetMeterProvider(mp); return mp, nil
    { handle := some mp, err := none,
      globals := { g with meterProvider := some mp },
      events := ev1 ++ [StartupEvent.setMeterProvider] }

/-- The exporter call whose result decides the outcome of `setupTracerProvider`:
the gRPC client when the kind is `ExporterGRPCType`, the stdout sink otherwise. -/
def selectedTraceCall (otelExporterType : ExporterType) : ExporterCall :=
  if otelExporterType = ExporterGRPCType then traceGRPCCall else traceConsoleCall

/-- The exporter call whose result decides the outcome of `setupMeterProvider`. -/
def selectedMetricCall (otelExporterType : ExporterType) : ExporterCall :=
  if otelExporterType = ExporterGRPCType then metricGRPCCall else metricConsoleCall

/-! ## Start-up prefix of `main` (lines 120-167) -/

/-- How the start-up prefix of `main` ends. -/
inductive StartupStatus where
  -- `logger.Fatal` was called: the process exits with status 1
  | aborted
  -- the goroutine calling `server.Listen(":8080")` has been launched
  | serving
  deriving DecidableEq, Repr

/-- State of the process at the end of the start-up prefix of `main`. -/
structure StartupResult where
  status : StartupStatus
  exitCode : Option Nat
  globals : Globals
  tp : Option TracerProvider
  mp : Option MeterProvider
  events : List StartupEvent

/-- Lines 120-167 of `main`: both providers are set up in order, `logger.Fatal`
(which logs and then exits the process with status 1) is called on the first
error, otherwise the handler is registered with `server.Get("/", ...)`, "Server is running" is logged and
the goroutine running `server.Listen(":8080")` is launched. -/
def mainStartup (lib : ExporterLib) (otelExporterType : ExporterType) : StartupResult :=
  let r1 := setupTracerProvider lib otelExporterType Globals.initial
  match r1.err with
  | some err =>
    { status := .aborted, exitCode := some 1, globals := r1.globals, tp := r1.handle, mp := none,
      events := r1.events ++ [.logFatal "Failed to init trace provider" err] }
  | none =>
    let r2 := setupMeterProvider lib otelExporterType r1.globals
    match r2.err with
    | some err =>
      { status := .aborted, exitCode := some 1, globals := r2.globals, tp := r1.handle,
        mp := r2.handle,
        events := r1.events ++ r2.events ++ [.logFatal "Failed to init metric provider" err] }
    | none =>
      { status := .serving, exitCode := none, globals := r2.globals, tp := r1.handle,
        mp := r2.handle,
        events := r1.events ++ r2.events ++
          [.routeGet "/", .logInfo "Server is running", .goServerListen ":8080"] }

/-! ## The request handler (lines 144-158) -/

/-- Wrap-around of Go's 64-bit signed integers (`int` on 64-bit targets, `int64`,
`time.Duration`). -/
def wrapInt64 (x : Int) : Int := (x + 2 ^ 63) % 2 ^ 64 - 2 ^ 63

/-- Go: `time.Millisecond`, in nanoseconds. -/
def Millisecond : Int := 1000000
/-- Go: `time.Second`, in nanoseconds. -/
def Second : Int := 1000000000

/-- Line 153: `time.Duration(rand.Intn(300)+100) * time.Millisecond`, where `r`
is the value returned by `rand.Intn(300)`. -/
def sleepDuration (r : Int) : Int :=
  wrapInt64 (wrapInt64 (r + 100) * Millisecond)

/-- What the handler reads from the `*fiber.Ctx`. -/
structure Request where
  method : String
  path : String
  deriving DecidableEq, Repr

/-- Effects performed by the handler, in order. -/
inductive HandlerEvent where
  | spanStart (name : String)
  | spanEnd (name : String)
  | logInfo (msg : String) (fields : List (String × String))
  | counterAdd (counter : String) (incr : Int) (attrs : List (String × String))
  | sleep (nanos : Int)
  | setStatus (code : Nat)
  | sendString (body : String)
  deriving DecidableEq, Repr

/-- The HTTP response written by the handler. -/
structure Response where
  status : Nat
  body : String
  deriving DecidableEq, Repr

/-- Go: `http.StatusOK`. -/
def StatusOK : Nat := 200

/-- Lines 145-156: the handler returned by `otelDemoHandler()`. `r` is the value
of `rand.Intn(300)`. The deferred `span.End()` runs last, before control goes
back to the caller. The handler returns the (nil) error of `SendString`. -/
def otelDemoHandler (req : Request) (r : Int) : List HandlerEvent × Response :=
  ( [ .spanStart "handle-demo-request",
      .logInfo "Received request" [("method", req.method), ("url", req.path)],
      .counterAdd "http_requests_total" 1 [("path", req.path), ("method", req.method)],
      .sleep (sleepDuration r),
      .setStatus StatusOK,
      .sendString "OpenTelemetry + Zap is working!",
      .spanEnd "handle-demo-request" ],
    { status := StatusOK, body := "OpenTelemetry + Zap is working!" } )

/-- Is the event the start of a span? -/
def HandlerEvent.isSpanStart : HandlerEvent → Bool
  | .spanStart _ => true
  | _ => false

/-- Is the event the end of a span? -/
def HandlerEvent.isSpanEnd : HandlerEvent → Bool
  | .spanEnd _ => true
  | _ => false

/-- Is the event a counter increment? -/
def HandlerEvent.isCounterAdd : HandlerEvent → Bool
  | .counterAdd _ _ _ => true
  | _ => false

/-! ## The shutdown sequence of `main` (lines 173-204) -/

/-- The three shutdown goroutines, named after the subsystem they stop. -/
inductive TaskId where
  | tracer
  | meter
  | server
  deriving DecidableEq, Repr

/-- A `context.Context`, reduced to its deadline (a clock value in nanoseconds);
`none` is a context without deadline. -/
structure Context where
  deadline : Option Nat
  deriving DecidableEq, Repr

/-- Go: `context.Background()`. -/
def Context.background : Context := ⟨none⟩

/-- Line 175: the timeout `time.Duration(10*time.Second)`, in nanoseconds. -/
def shutdownTimeout : Nat := 10 * 1000000000

/-- Go: `context.WithTimeout(context.Background(), d)` evaluated at clock `now`. -/
def Context.withTimeout (now d : Nat) : Context := ⟨some (now + d)⟩

/-- Go: `context.DeadlineExceeded`. -/
def deadlineExceeded : GoError := .plain "context deadline exceeded"

/-- What a `Shutdown` call returns: `nil` or an error. -/
inductive CallResult where
  | ok
  | failed (err : GoError)
  deriving DecidableEq, Repr

/-- The environment's side of one subsystem's shutdown: the clock value from
which the subsystem has finished draining on its own account (`none`: it never
does), and what the call then returns. -/
structure Drain where
  readyAt : Option Nat
  result : CallResult
  deriving DecidableEq, Repr

/-- Library contract of a blocking `Shutdown` call observed at clock `now`:
`none` while the call is still blocked. A call that was given a context with a
deadline returns `context.DeadlineExceeded` once the deadline has passed without
the drain having finished; a call without such a context returns only when the
drain has finished. -/
def shutdownReturn (d : Drain) (ctx : Option Context) (now : Nat) : Option CallResult :=
  match ctx.bind Context.deadline with
  | none =>
    match d.readyAt with
    | some t => if t ≤ now then some d.result else none
    | none => none
  | some dl =>
    match d.readyAt with
    | some t =>
      if t ≤ dl then (if t ≤ now then some d.result else none)
      else (if dl ≤ now then some (.failed deadlineExceeded) else none)
    | none => if dl ≤ now then some (.failed deadlineExceeded) else none

/-- The behaviour of the three subsystems during shutdown. -/
structure ShutdownEnv where
  drain : TaskId → Drain

/-- The context argument of each goroutine's `Shutdown` call, given the `ctx`
parameter the goroutine was launched with: line 183 `tp.Shutdown(ctx)`,
line 190 `mp.Shutdown(ctx)`, line 197 `server.Shutdown()`. -/
def callContext (t : TaskId) (ctx : Context) : Option Context :=
  match t with
  | .tracer => some ctx
  | .meter => some ctx
  | .server => none

/-- The message of the `logger.Fatal` call in each goroutine (lines 184, 191, 198). -/
def fatalMessage : TaskId → String
  | .tracer => "Tracer provider cannot shutting down properly!"
  | .meter => "Metrics provider cannot shutting down properly!"
  | .server => "Server cannot shutting down properly!"

/-- Program counter of the main goroutine from line 173 on. -/
inductive CoordPc where
  -- line 173 passed: the termination signal has been received
  | signalled
  -- line 175 done: `shutdownCtx` created
  | ctxCreated
  -- line 179 done: `wg.Add(3)`
  | added
  -- line 186 done: first goroutine launched
  | launched1
  -- line 193 done: second goroutine launched
  | launched2
  -- line 200 done: third goroutine launched; blocked in `wg.Wait()` (line 202)
  | waiting
  -- `wg.Wait()` has returned
  | passedWait
  -- line 204 done: "Server is shutting down!" logged
  | logged
  -- `main` has returned
  | returned
  deriving DecidableEq, Repr

/-- Program counter of a shutdown goroutine. -/
inductive TaskPc where
  -- the `go` statement has not been executed yet
  | notLaunched
  -- created, `Shutdown` not yet called
  | launched
  -- inside the `Shutdown` call
  | calling
  -- `Shutdown` returned nil and the deferred `wg.Done()` has run
  | done
  -- `Shutdown` returned an error and `logger.Fatal` was called
  | fatal
  deriving DecidableEq, Repr

/-- Effects of the shutdown sequence, newest first in the state. -/
inductive ShutdownEvent where
  | wgAdd (n : Int)
  | launch (t : TaskId) (ctxArg : Context)
  | invoke (t : TaskId) (ctx : Option Context)
  | returned (t : TaskId) (r : CallResult)
  | wgDone (t : TaskId)
  | logFatal (msg : String) (err : GoError)
  | logInfo (msg : String)
  | exit (code : Nat)
  deriving DecidableEq, Repr

/-- State of the process during the shutdown sequence. -/
structure State where
  clock : Nat
  exited : Option Nat
  coord : CoordPc
  shutdownCtx : Context
  wg : Int
  tracer : TaskPc
  meter : TaskPc
  server : TaskPc
  events : List ShutdownEvent
  deriving DecidableEq, Repr

/-- The state when the termination signal is observed at clock `now`. -/
def State.init (now : Nat) : State :=
  { clock := now, exited := none, coord := .signalled, shutdownCtx := Context.background,
    wg := 0, tracer := .notLaunched, meter := .notLaunched, server := .notLaunched,
    events := [] }

/-- Program counter of goroutine `t`. -/
def State.pc (s : State) : TaskId → TaskPc
  | .tracer => s.tracer
  | .meter => s.meter
  | .server => s.server

/-- Update of the program counter of goroutine `t`. -/
def State.setPc (s : State) (t : TaskId) (p : TaskPc) : State :=
  match t with
  | .tracer => { s with tracer := p }
  | .meter => { s with meter := p }
  | .server => { s with server := p }

/-- Who takes the next step. -/
inductive Actor where
  | coordinator
  | task (t : TaskId)
  | tick (nanos : Nat)
  deriving DecidableEq, Repr

/-- The `go func(ctx){...}(shutdownCtx)` statement for goroutine `t`. -/
def launchTask (s : State) (t : TaskId) (next : CoordPc) : State :=
  { s.setPc t .launched with
    coord := next, events := .launch t s.shutdownCtx :: s.events }

/-- One step of the main goroutine (lines 175-204). -/
def coordStep (s : State) : Option State :=
  match s.coord with
  | .signalled =>
    some { s with coord := .ctxCreated,
                  shutdownCtx := Context.withTimeout s.clock shutdownTimeout }
  | .ctxCreated =>
    some { s with coord := .added, wg := s.wg + 3, events := .wgAdd 3 :: s.events }
  | .added => some (launchTask s .tracer .launched1)
  | .launched1 => some (launchTask s .meter .launched2)
  | .launched2 => some (launchTask s .server .waiting)
  | .waiting =>
    -- wg.Wait() returns once the counter is zero
    if s.wg = 0 then some { s with coord := .passedWait } else none
  | .passedWait =>
    some { s with coord := .logged, events := .logInfo "Server is shutting down!" :: s.events }
  | .logged =>
    some { s with coord := .returned, exited := some 0, events := .exit 0 :: s.events }
  | .returned => none

/-- One step of shutdown goroutine `t`: it calls its subsystem's `Shutdown`;
when the call returns nil the deferred `wg.Done()` runs; when it returns an
error, `logger.Fatal` logs it and exits the process with status 1 (deferred
calls do not run). A negative WaitGroup counter is a Go panic (exit status 2). -/
def taskStep (env : ShutdownEnv) (s : State) (t : TaskId) : Option State :=
  match s.pc t with
  | .notLaunched => none
  | .launched =>
    some { s.setPc t .calling with
      events := .invoke t (callContext t s.shutdownCtx) :: s.events }
  | .calling =>
    match shutdownReturn (env.drain t) (callContext t s.shutdownCtx) s.clock with
    | none => none
    | some .ok =>
      if s.wg - 1 < 0 then
        some { s with exited := some 2, events := .exit 2 :: .returned t .ok :: s.events }
      else
        some { s.setPc t .done with
          wg := s.wg - 1, events := .wgDone t :: .returned t .ok :: s.events }
    | some (.failed e) =>
      some { s.setPc t .fatal with
        exited := some 1,
        events := .exit 1 :: .logFatal (fatalMessage t) e :: .returned t (.failed e) :: s.events }
  | .done => none
  | .fatal => none

/-- One step of the process; `none` when the actor cannot move (blocked,
finished, or the process has exited). -/
def step (env : ShutdownEnv) (s : State) (a : Actor) : Option State :=
  if s.exited.isSome then none
  else
    match a with
    | .coordinator => coordStep s
    | .task t => taskStep env s t
    | .tick d => some { s with clock := s.clock + d }

/-- Runs a schedule; an actor that cannot move is skipped. -/
def exec (env : ShutdownEnv) (s : State) : List Actor → State
  | [] => s
  | a :: rest =>
    match step env s a with
    | some s1 => exec env s1 rest
    | none => exec env s rest

/-- Has the coordinator got past `wg.Wait()`? -/
def CoordPc.pastWait : CoordPc → Bool
  | .passedWait => true
  | .logged => true
  | .returned => true
  | _ => false

/-- Has the coordinator executed `wg.Add(3)`? -/
def CoordPc.hasAdded : CoordPc → Bool
  | .signalled => false
  | .ctxCreated => false
  | _ => true

/-- The state reached from the arrival of the termination signal at clock `now`
under schedule `sched`. -/
def reach (env : ShutdownEnv) (now : Nat) (sched : List Actor) : State :=
  exec env (State.init now) sched

/-! ## Observations on shutdown states -/

/-- Number of `go` statements the coordinator has executed. -/
def CoordPc.launchedCount : CoordPc → Nat
  | .signalled => 0
  | .ctxCreated => 0
  | .added => 0
  | .launched1 => 1
  | .launched2 => 2
  | _ => 3

/-- Has the goroutine entered its `Shutdown` call? -/
def TaskPc.invoked : TaskPc → Bool
  | .calling => true
  | .done => true
  | .fatal => true
  | _ => false

/-- One if the goroutine has run `wg.Done()`, zero otherwise. -/
def TaskPc.doneN (p : TaskPc) : Int := if p = .done then 1 else 0

/-- Is the event the launch of goroutine `t`? -/
def ShutdownEvent.isLaunchOf (t : TaskId) : ShutdownEvent → Bool
  | .launch u _ => decide (u = t)
  | _ => false

/-- Is the event goroutine `t` calling its subsystem's `Shutdown`? -/
def ShutdownEvent.isInvokeOf (t : TaskId) : ShutdownEvent → Bool
  | .invoke u _ => decide (u = t)
  | _ => false

/-- Is the event goroutine `t` running `wg.Done()`? -/
def ShutdownEvent.isDoneOf (t : TaskId) : ShutdownEvent → Bool
  | .wgDone u => decide (u = t)
  | _ => false

/-- Is the event a `wg.Add`? -/
def ShutdownEvent.isWgAdd : ShutdownEvent → Bool
  | .wgAdd _ => true
  | _ => false

/-- Is the event a `logger.Fatal` call? -/
def ShutdownEvent.isLogFatal : ShutdownEvent → Bool
  | .logFatal _ _ => true
  | _ => false

/-- How many times goroutine `t` has been launched. -/
def State.launches (s : State) (t : TaskId) : Nat :=
  s.events.countP (ShutdownEvent.isLaunchOf t)

/-- How many times the `Shutdown` of subsystem `t` has been invoked. -/
def State.invocations (s : State) (t : TaskId) : Nat :=
  s.events.countP (ShutdownEvent.isInvokeOf t)

/-- How many times goroutine `t` has signalled the barrier. -/
def State.signals (s : State) (t : TaskId) : Nat :=
  s.events.countP (ShutdownEvent.isDoneOf t)

/-- Control invariant of the shutdown sequence: the WaitGroup counter is the
three added minus the goroutines that have signalled, goroutines exist exactly
once their `go` statement has run, the coordinator is past `wg.Wait()` only with
all three settled, and the exit status reflects how the process ended. -/
structure Inv (s : State) : Prop where
  wg_eq : s.wg = (if s.coord.hasAdded then 3 else 0)
    - (s.tracer.doneN + s.meter.doneN + s.server.doneN)
  tr_nl : s.tracer = .notLaunched ↔ s.coord.launchedCount = 0
  me_nl : s.meter = .notLaunched ↔ s.coord.launchedCount ≤ 1
  sv_nl : s.server = .notLaunched ↔ s.coord.launchedCount ≤ 2
  past : s.coord.pastWait = true → s.tracer = .done ∧ s.meter = .done ∧ s.server = .done
  fatal_ex : (s.tracer = .fatal ∨ s.meter = .fatal ∨ s.server = .fatal) ↔ s.exited = some 1
  ret_ex : s.coord = .returned ↔ s.exited = some 0
  ex : s.exited = none ∨ s.exited = some 0 ∨ s.exited = some 1

/-- Event invariant of the shutdown sequence: how often each effect has
occurred, as a function of the program counters, and which context each launch
and each `Shutdown` call was given. -/
structure EvInv (s : State) : Prop where
  sig_ev : s.coord = .signalled → s.events = []
  cnt_add : s.events.countP ShutdownEvent.isWgAdd = if s.coord.hasAdded then 1 else 0
  add3 : ∀ n, ShutdownEvent.wgAdd n ∈ s.events → n = 3
  cnt_launch : ∀ t, s.launches t = if s.pc t = .notLaunched then 0 else 1
  cnt_invoke : ∀ t, s.invocations t = if (s.pc t).invoked then 1 else 0
  cnt_done : ∀ t, s.signals t = if s.pc t = .done then 1 else 0
  launch_ctx : ∀ t c, ShutdownEvent.launch t c ∈ s.events → c = s.shutdownCtx
  invoke_ctx : ∀ t c, ShutdownEvent.invoke t c ∈ s.events → c = callContext t s.shutdownCtx
  ctx_set : s.coord = .signalled ∨
    ∃ t0, t0 ≤ s.clock ∧ s.shutdownCtx = Context.withTimeout t0 shutdownTimeout
  log_fatal : s.events.any ShutdownEvent.isLogFatal = true ↔ s.exited = some 1
  log_info : ShutdownEvent.logInfo "Server is shutting down!" ∈ s.events ↔
    (s.coord = .logged ∨ s.coord = .returned)

/-- Return invariant of the shutdown sequence: a goroutine has signalled the
barrier only after its `Shutdown` call, made with the context the source gives
it, returned nil at some earlier clock value, and that return is on record. -/
structure RetInv (env : ShutdownEnv) (s : State) : Prop where
  ret_ok : ∀ t, s.pc t = .done → ∃ c, c ≤ s.clock ∧
    shutdownReturn (env.drain t) (callContext t s.shutdownCtx) c = some .ok
  ret_ev : ∀ t, s.pc t = .done → ShutdownEvent.returned t .ok ∈ s.events

/-! ## Concrete inputs used in the examples below -/

/-- Every exporter constructor succeeds. -/
def libAllSucceed : ExporterLib := ⟨fun _ => none⟩

/-- Only the OTLP gRPC metric client fails to build. -/
def libMetricGRPCFails : ExporterLib :=
  ⟨fun c => if c.ctor = .otlpmetricgrpcNew then some (.plain "invalid endpoint") else none⟩

/-- Every subsystem drains at once and its `Shutdown` returns nil. -/
def envAllOk : ShutdownEnv := ⟨fun _ => ⟨some 0, .ok⟩⟩

/-- The tracer provider's `Shutdown` returns an error at once; the other two
subsystems drain at once and return nil. -/
def envTracerFails : ShutdownEnv :=
  ⟨fun t => match t with
    | .tracer => ⟨some 0, .failed (.plain "exporter unreachable")⟩
    | _ => ⟨some 0, .ok⟩⟩

/-- The server never finishes draining (an in-flight request never completes);
the two providers drain at once and return nil. -/
def envServerHangs : ShutdownEnv :=
  ⟨fun t => match t with
    | .server => ⟨none, .ok⟩
    | _ => ⟨some 0, .ok⟩⟩

/-- The coordinator runs lines 175-200: context, `wg.Add(3)`, three launches. -/
def schedLaunchAll : List Actor :=
  [.coordinator, .coordinator, .coordinator, .coordinator, .coordinator]

/-- All three goroutines are launched, each calls `Shutdown` and returns. -/
def schedAllReturn : List Actor :=
  schedLaunchAll ++
    [.task .tracer, .task .meter, .task .server,
     .task .server, .task .tracer, .task .meter]

/-- As `schedAllReturn`, then the coordinator passes `wg.Wait()`. -/
def schedAllSettle : List Actor := schedAllReturn ++ [.coordinator]

/-- All three goroutines are launched and the tracer goroutine is inside
`tp.Shutdown(ctx)`. -/
def schedTracerCalling : List Actor := schedLaunchAll ++ [.task .tracer]

/-- All three goroutines are launched; the tracer goroutine calls `Shutdown`
and gets its result; then everybody else is given a chance to move. -/
def schedTracerFirst : List Actor :=
  schedLaunchAll ++
    [.task .tracer, .task .tracer,
     .task .meter, .task .meter, .task .server, .task .server,
     .coordinator, .coordinator, .coordinator]

/-- All three goroutines are launched and call `Shutdown`; eleven seconds pass;
then everybody is given a chance to move, the coordinator last. -/
def schedPastDeadline : List Actor :=
  schedLaunchAll ++
    [.task .tracer, .task .meter, .task .server,
     .tick 11000000000,
     .task .tracer, .task .meter, .task .server,
     .coordinator, .coordinator]

/-! ## Theorems: provider set-up and start-up -/

theorem setupTracerProvider_err (lib : ExporterLib) (k : ExporterType) (g : Globals)
    (e : GoError) (h : lib.newErr (selectedTraceCall k) = some e) :
    setupTracerProvider lib k g =
      { handle := none, err := some (errorfW "failed to create trace exporter: " e),
        globals := g,
        events := if k = ExporterGRPCType
          then [.newExporter traceConsoleCall, .newExporter traceGRPCCall]
          else [.newExporter traceConsoleCall] } := by
  unfold selectedTraceCall at h
  by_cases hk : k = ExporterGRPCType
  · simp only [hk, if_true] at h
    simp [setupTracerProvider, hk, ExporterLib.new, h]
  · simp only [hk, if_false] at h
    simp [setupTracerProvider, hk, ExporterLib.new, h]

theorem setupTracerProvider_ok (lib : ExporterLib) (k : ExporterType) (g : Globals)
    (h : lib.newErr (selectedTraceCall k) = none) :
    setupTracerProvider lib k g =
      { handle := some ⟨some ⟨selectedTraceCall k⟩, demoResource⟩, err := none,
        globals := { g with tracerProvider := some ⟨some ⟨selectedTraceCall k⟩, demoResource⟩ },
        events := if k = ExporterGRPCType
          then [.newExporter traceConsoleCall, .newExporter traceGRPCCall, .setTracerProvider]
          else [.newExporter traceConsoleCall, .setTracerProvider] } := by
  unfold selectedTraceCall at h ⊢
  by_cases hk : k = ExporterGRPCType
  · simp only [hk, if_true] at h
    simp [setupTracerProvider, hk, ExporterLib.new, h]
  · simp only [hk, if_false] at h
    simp [setupTracerProvider, hk, ExporterLib.new, h]

theorem setupMeterProvider_err (lib : ExporterLib) (k : ExporterType) (g : Globals)
    (e : GoError) (h : lib.newErr (selectedMetricCall k) = some e) :
    setupMeterProvider lib k g =
      { handle := none, err := some (errorfW "failed to create metric exporter: " e),
        globals := g,
        events := if k = ExporterGRPCType
          then [.newExporter metricConsoleCall, .newExporter metricGRPCCall]
          else [.newExporter metricConsoleCall] } := by
  unfold selectedMetricCall at h
  by_cases hk : k = ExporterGRPCType
  · simp only [hk, if_true] at h
    simp [setupMeterProvider, hk, ExporterLib.new, h]
  · simp only [hk, if_false] at h
    simp [setupMeterProvider, hk, ExporterLib.new, h]

theorem setupMeterProvider_ok (lib : ExporterLib) (k : ExporterType) (g : Globals)
    (h : lib.newErr (selectedMetricCall k) = none) :
    setupMeterProvider lib k g =
      { handle := some ⟨some ⟨selectedMetricCall k⟩, demoResource⟩, err := none,
        globals := { g with meterProvider := some ⟨some ⟨selectedMetricCall k⟩, demoResource⟩ },
        events := if k = ExporterGRPCType
          then [.newExporter metricConsoleCall, .newExporter metricGRPCCall, .setMeterProvider]
          else [.newExporter metricConsoleCall, .setMeterProvider] } := by
  unfold selectedMetricCall at h ⊢
  by_cases hk : k = ExporterGRPCType
  · simp only [hk, if_true] at h
    simp [setupMeterProvider, hk, ExporterLib.new, h]
  · simp only [hk, if_false] at h
    simp [setupMeterProvider, hk, ExporterLib.new, h]

/-- C4: in `setupTracerProvider` and in `setupMeterProvider`, for every exporter
kind, when the selected exporter's constructor returns an error the function
returns a nil handle and that error wrapped with the "failed to create ...
exporter: " text in front, leaves the process-wide registry unchanged and makes
no `Set...Provider` call; otherwise it returns a handle and a nil error. A handle
is returned exactly when the error is nil. -/
theorem setup_handle_xor_error (lib : ExporterLib) (k : ExporterType) (g : Globals) :
    (match lib.newErr (selectedTraceCall k) with
      | some e =>
        (setupTracerProvider lib k g).handle = none ∧
        (setupTracerProvider lib k g).err
          = some (errorfW "failed to create trace exporter: " e) ∧
        ((setupTracerProvider lib k g).err.map GoError.Error
          = some ("failed to create trace exporter: " ++ e.Error)) ∧
        ((setupTracerProvider lib k g).err.bind GoError.Unwrap = some e) ∧
        (setupTracerProvider lib k g).globals = g ∧
        StartupEvent.setTracerProvider ∉ (setupTracerProvider lib k g).events
      | none =>
        (setupTracerProvider lib k g).handle.isSome = true ∧
        (setupTracerProvider lib k g).err = none) ∧
    (match lib.newErr (selectedMetricCall k) with
      | some e =>
        (setupMeterProvider lib k g).handle = none ∧
        (setupMeterProvider lib k g).err
          = some (errorfW "failed to create metric exporter: " e) ∧
        ((setupMeterProvider lib k g).err.map GoError.Error
          = some ("failed to create metric exporter: " ++ e.Error)) ∧
        ((setupMeterProvider lib k g).err.bind GoError.Unwrap = some e) ∧
        (setupMeterProvider lib k g).globals = g ∧
        StartupEvent.setMeterProvider ∉ (setupMeterProvider lib k g).events
      | none =>
        (setupMeterProvider lib k g).handle.isSome = true ∧
        (setupMeterProvider lib k g).err = none) ∧
    ((setupTracerProvider lib k g).handle.isSome = (setupTracerProvider lib k g).err.isNone) ∧
    ((setupMeterProvider lib k g).handle.isSome = (setupMeterProvider lib k g).err.isNone) := by
  have key1 : ∀ o, lib.newErr (selectedTraceCall k) = o →
      (match o with
      | some e =>
        (setupTracerProvider lib k g).handle = none ∧
        (setupTracerProvider lib k g).err
          = some (errorfW "failed to create trace exporter: " e) ∧
        ((setupTracerProvider lib k g).err.map GoError.Error
          = some ("failed to create trace exporter: " ++ e.Error)) ∧
        ((setupTracerProvider lib k g).err.bind GoError.Unwrap = some e) ∧
        (setupTracerProvider lib k g).globals = g ∧
        StartupEvent.setTracerProvider ∉ (setupTracerProvider lib k g).events
      | none =>
        (setupTracerProvider lib k g).handle.isSome = true ∧
        (setupTracerProvider lib k g).err = none) ∧
      ((setupTracerProvider lib k g).handle.isSome
        = (setupTracerProvider lib k g).err.isNone) := by
    intro o ho
    cases o with
    | none =>
      rw [setupTracerProvider_ok lib k g ho]
      simp
    | some e =>
      rw [setupTracerProvider_err lib k g e ho]
      by_cases hk : k = ExporterGRPCType <;> simp [hk, errorfW, GoError.Error, GoError.Unwrap]
  have key2 : ∀ o, lib.newErr (selectedMetricCall k) = o →
      (match o with
      | some e =>
        (setupMeterProvider lib k g).handle = none ∧
        (setupMeterProvider lib k g).err
          = some (errorfW "failed to create metric exporter: " e) ∧
        ((setupMeterProvider lib k g).err.map GoError.Error
          = some ("failed to create metric exporter: " ++ e.Error)) ∧
        ((setupMeterProvider lib k g).err.bind GoError.Unwrap = some e) ∧
        (setupMeterProvider lib k g).globals = g ∧
        StartupEvent.setMeterProvider ∉ (setupMeterProvider lib k g).events
      | none =>
        (setupMeterProvider lib k g).handle.isSome = true ∧
        (setupMeterProvider lib k g).err = none) ∧
      ((setupMeterProvider lib k g).handle.isSome
        = (setupMeterProvider lib k g).err.isNone) := by
    intro o ho
    cases o with
    | none =>
      rw [setupMeterProvider_ok lib k g ho]
      simp
    | some e =>
      rw [setupMeterProvider_err lib k g e ho]
      by_cases hk : k = ExporterGRPCType <;> simp [hk, errorfW, GoError.Error, GoError.Unwrap]
  exact ⟨(key1 _ rfl).1, (key2 _ rfl).1, (key1 _ rfl).2, (key2 _ rfl).2⟩

/-- C5 (as stated, refuted): with the gRPC kind, a trace client that builds and a
metric client that fails to build, `main` aborts with the tracer provider still
installed process-wide. -/
theorem startup_abort_leaves_tracer_installed :
    (mainStartup libMetricGRPCFails ExporterGRPCType).status = .aborted ∧
    (mainStartup libMetricGRPCFails ExporterGRPCType).globals.tracerProvider
      = some ⟨some ⟨traceGRPCCall⟩, demoResource⟩ := by
  decide

/-- C5 (amended): when a set-up step of `main` fails the process exits with
status 1 without launching `server.Listen`. If `setupTracerProvider` fails the
registry is still as at process start; if it succeeds and `setupMeterProvider`
fails, the tracer provider stays installed and no meter provider is installed. -/
theorem startup_failure_aborts_before_listen (lib : ExporterLib) (k : ExporterType) :
    (match lib.newErr (selectedTraceCall k), lib.newErr (selectedMetricCall k) with
      | some _, _ =>
        (mainStartup lib k).status = .aborted ∧
        (mainStartup lib k).exitCode = some 1 ∧
        (∀ addr, StartupEvent.goServerListen addr ∉ (mainStartup lib k).events) ∧
        (mainStartup lib k).globals = Globals.initial
      | none, some _ =>
        (mainStartup lib k).status = .aborted ∧
        (mainStartup lib k).exitCode = some 1 ∧
        (∀ addr, StartupEvent.goServerListen addr ∉ (mainStartup lib k).events) ∧
        (mainStartup lib k).globals.tracerProvider
          = some ⟨some ⟨selectedTraceCall k⟩, demoResource⟩ ∧
        (mainStartup lib k).globals.meterProvider = none
      | none, none => (mainStartup lib k).status = .serving) := by
  have key : ∀ o1 o2, lib.newErr (selectedTraceCall k) = o1 →
      lib.newErr (selectedMetricCall k) = o2 →
      (match o1, o2 with
      | some _, _ =>
        (mainStartup lib k).status = .aborted ∧
        (mainStartup lib k).exitCode = some 1 ∧
        (∀ addr, StartupEvent.goServerListen addr ∉ (mainStartup lib k).events) ∧
        (mainStartup lib k).globals = Globals.initial
      | none, some _ =>
        (mainStartup lib k).status = .aborted ∧
        (mainStartup lib k).exitCode = some 1 ∧
        (∀ addr, StartupEvent.goServerListen addr ∉ (mainStartup lib k).events) ∧
        (mainStartup lib k).globals.tracerProvider
          = some ⟨some ⟨selectedTraceCall k⟩, demoResource⟩ ∧
        (mainStartup lib k).globals.meterProvider = none
      | none, none => (mainStartup lib k).status = .serving) := by
    intro o1 o2 h1 h2
    cases o1 with
    | some e1 =>
      simp only [mainStartup, setupTracerProvider_err lib k _ e1 h1]
      by_cases hk : k = ExporterGRPCType <;> simp [hk]
    | none =>
      cases o2 with
      | some e2 =>
        simp only [mainStartup, setupTracerProvider_ok lib k _ h1,
          setupMeterProvider_err lib k _ e2 h2]
        by_cases hk : k = ExporterGRPCType <;> simp [hk, Globals.initial]
      | none =>
        simp only [mainStartup, setupTracerProvider_ok lib k _ h1,
          setupMeterProvider_ok lib k _ h2]
  exact key _ _ rfl rfl

/-- C6 (as stated, refuted): with the console kind, the exporter handed to the
meter provider was built by `stdoutmetric.New()` with no option at all, so it
is not configured for pretty-printing. -/
theorem meter_console_exporter_has_no_options :
    ((setupMeterProvider libAllSucceed ExporterConsoleType Globals.initial).handle.bind
        MeterProvider.periodicReaderExporter).map (fun e => e.builtBy)
      = some ⟨.stdoutmetricNew, []⟩ ∧
    ExporterOption.withPrettyPrint ∉ metricConsoleCall.opts := by
  decide

/-- C6 (amended): with `ExporterConsoleType` no network exporter is constructed,
the tracer provider gets the stdout sink built with the pretty-print option and
the meter provider gets the stdout sink built with no option; with
`ExporterGRPCType` each provider gets the OTLP gRPC client built with the
insecure option, and an error of that client's constructor is returned, wrapped,
as the construction error. -/
theorem exporter_selection_follows_kind (lib : ExporterLib) (g : Globals) :
    -- console kind
    (∀ c, StartupEvent.newExporter c ∈ (setupTracerProvider lib ExporterConsoleType g).events →
      c.ctor.isNetwork = false) ∧
    (∀ c, StartupEvent.newExporter c ∈ (setupMeterProvider lib ExporterConsoleType g).events →
      c.ctor.isNetwork = false) ∧
    (match lib.newErr traceConsoleCall with
      | none => (setupTracerProvider lib ExporterConsoleType g).handle
          = some ⟨some ⟨⟨.stdouttraceNew, [.withPrettyPrint]⟩⟩, demoResource⟩
      | some e => (setupTracerProvider lib ExporterConsoleType g).err
          = some (errorfW "failed to create trace exporter: " e)) ∧
    (match lib.newErr metricConsoleCall with
      | none => (setupMeterProvider lib ExporterConsoleType g).handle
          = some ⟨some ⟨⟨.stdoutmetricNew, []⟩⟩, demoResource⟩
      | some e => (setupMeterProvider lib ExporterConsoleType g).err
          = some (errorfW "failed to create metric exporter: " e)) ∧
    -- gRPC kind
    (match lib.newErr traceGRPCCall with
      | none => (setupTracerProvider lib ExporterGRPCType g).handle
          = some ⟨some ⟨⟨.otlptracegrpcNew, [.withInsecure]⟩⟩, demoResource⟩
      | some e => (setupTracerProvider lib ExporterGRPCType g).handle = none ∧
          (setupTracerProvider lib ExporterGRPCType g).err
            = some (errorfW "failed to create trace exporter: " e)) ∧
    (match lib.newErr metricGRPCCall with
      | none => (setupMeterProvider lib ExporterGRPCType g).handle
          = some ⟨some ⟨⟨.otlpmetricgrpcNew, [.withInsecure]⟩⟩, demoResource⟩
      | some e => (setupMeterProvider lib ExporterGRPCType g).handle = none ∧
          (setupMeterProvider lib ExporterGRPCType g).err
            = some (errorfW "failed to create metric exporter: " e)) := by
  have sT0 : selectedTraceCall ExporterConsoleType = traceConsoleCall := by decide
  have sM0 : selectedMetricCall ExporterConsoleType = metricConsoleCall := by decide
  have sT1 : selectedTraceCall ExporterGRPCType = traceGRPCCall := by decide
  have sM1 : selectedMetricCall ExporterGRPCType = metricGRPCCall := by decide
  have hc : ExporterConsoleType ≠ ExporterGRPCType := by decide
  refine ⟨?_, ?_, ?_, ?_, ?_, ?_⟩
  · intro c hmem
    cases h : lib.newErr traceConsoleCall with
    | none =>
      rw [setupTracerProvider_ok lib _ g (by rw [sT0]; exact h)] at hmem
      simp [hc] at hmem
      subst hmem
      rfl
    | some e =>
      rw [setupTracerProvider_err lib _ g e (by rw [sT0]; exact h)] at hmem
      simp [hc] at hmem
      subst hmem
      rfl
  · intro c hmem
    cases h : lib.newErr metricConsoleCall with
    | none =>
      rw [setupMeterProvider_ok lib _ g (by rw [sM0]; exact h)] at hmem
      simp [hc] at hmem
      subst hmem
      rfl
    | some e =>
      rw [setupMeterProvider_err lib _ g e (by rw [sM0]; exact h)] at hmem
      simp [hc] at hmem
      subst hmem
      rfl
  · cases h : lib.newErr traceConsoleCall with
    | none => rw [setupTracerProvider_ok lib _ g (by rw [sT0]; exact h)]; rfl
    | some e => rw [setupTracerProvider_err lib _ g e (by rw [sT0]; exact h)]
  · cases h : lib.newErr metricConsoleCall with
    | none => rw [setupMeterProvider_ok lib _ g (by rw [sM0]; exact h)]; rfl
    | some e => rw [setupMeterProvider_err lib _ g e (by rw [sM0]; exact h)]
  · cases h : lib.newErr traceGRPCCall with
    | none => rw [setupTracerProvider_ok lib _ g (by rw [sT1]; exact h)]; rfl
    | some e => rw [setupTracerProvider_err lib _ g e (by rw [sT1]; exact h)]; exact ⟨rfl, rfl⟩
  · cases h : lib.newErr metricGRPCCall with
    | none => rw [setupMeterProvider_ok lib _ g (by rw [sM1]; exact h)]; rfl
    | some e => rw [setupMeterProvider_err lib _ g e (by rw [sM1]; exact h)]; exact ⟨rfl, rfl⟩

/-- Witness for `exporter_selection_follows_kind`: with the console kind and
constructors that all succeed, the one exporter built by `setupTracerProvider`
is not a network client. -/
theorem exporter_selection_follows_kind_witness :
    StartupEvent.newExporter traceConsoleCall
        ∈ (setupTracerProvider libAllSucceed ExporterConsoleType Globals.initial).events ∧
    traceConsoleCall.ctor.isNetwork = false :=
  ⟨by decide,
   (exporter_selection_follows_kind libAllSucceed Globals.initial).1 traceConsoleCall
     (by decide)⟩

/-- C7: for every request, the handler starts exactly one span, named
"handle-demo-request", first, and ends it last; it adds 1 to
`http_requests_total` exactly once, tagged with the request's path and method;
and it answers 200 with the fixed body. For `GET /` the tags are
`path = "/"`, `method = "GET"`. -/
theorem handler_effects (req : Request) (r : Int) :
    (otelDemoHandler req r).1.filter HandlerEvent.isSpanStart
      = [.spanStart "handle-demo-request"] ∧
    (otelDemoHandler req r).1.filter HandlerEvent.isSpanEnd
      = [.spanEnd "handle-demo-request"] ∧
    (otelDemoHandler req r).1.head? = some (.spanStart "handle-demo-request") ∧
    (otelDemoHandler req r).1.getLast? = some (.spanEnd "handle-demo-request") ∧
    (otelDemoHandler req r).1.filter HandlerEvent.isCounterAdd
      = [.counterAdd "http_requests_total" 1 [("path", req.path), ("method", req.method)]] ∧
    (otelDemoHandler req r).2 = ⟨200, "OpenTelemetry + Zap is working!"⟩ ∧
    (otelDemoHandler ⟨"GET", "/"⟩ r).1.filter HandlerEvent.isCounterAdd
      = [.counterAdd "http_requests_total" 1 [("path", "/"), ("method", "GET")]] ∧
    StartupEvent.routeGet "/" ∈ (mainStartup libAllSucceed ExporterConsoleType).events := by
  refine ⟨rfl, rfl, rfl, rfl, rfl, rfl, rfl, by decide⟩

/-- If `x` does not occur in `l`, the only way to split `l ++ [x]` around an
occurrence of `x` is at the end. -/
theorem split_at_last {α : Type} (x : α) :
    ∀ (l pre post : List α), x ∉ l → l ++ [x] = pre ++ x :: post → pre = l
  | [], pre, post, _, h => by
    cases pre with
    | nil => rfl
    | cons a t => simp at h
  | b :: l, pre, post, hx, h => by
    cases pre with
    | nil =>
      simp at h
      exact absurd (by simp [h.1]) hx
    | cons a t =>
      simp at h
      have hx2 : x ∉ l := fun hm => hx (List.mem_cons_of_mem _ hm)
      rw [h.1, split_at_last x l t post hx2 h.2]

/-- C8: in every execution of `main`, wherever the launch of `server.Listen`
occurs in the sequence of effects, both `otel.SetTracerProvider` and
`otel.SetMeterProvider` have occurred before it, and at the end of start-up both
providers are installed process-wide. -/
theorem providers_installed_before_listen (lib : ExporterLib) (k : ExporterType)
    (pre post : List StartupEvent) (addr : String)
    (h : (mainStartup lib k).events = pre ++ StartupEvent.goServerListen addr :: post) :
    StartupEvent.setTracerProvider ∈ pre ∧ StartupEvent.setMeterProvider ∈ pre ∧
    (mainStartup lib k).status = .serving ∧
    (mainStartup lib k).globals.tracerProvider.isSome = true ∧
    (mainStartup lib k).globals.meterProvider.isSome = true ∧
    (mainStartup lib k).globals.tracerProvider = (mainStartup lib k).tp ∧
    (mainStartup lib k).globals.meterProvider = (mainStartup lib k).mp := by
  have hmem : StartupEvent.goServerListen addr ∈ (mainStartup lib k).events := by
    rw [h]; simp
  cases h1 : lib.newErr (selectedTraceCall k) with
  | some e1 =>
    exfalso
    simp only [mainStartup, setupTracerProvider_err lib k _ e1 h1] at hmem
    by_cases hk : k = ExporterGRPCType <;> simp [hk] at hmem
  | none =>
    cases h2 : lib.newErr (selectedMetricCall k) with
    | some e2 =>
      exfalso
      simp only [mainStartup, setupTracerProvider_ok lib k _ h1,
        setupMeterProvider_err lib k _ e2 h2] at hmem
      by_cases hk : k = ExporterGRPCType <;> simp [hk] at hmem
    | none =>
      simp only [mainStartup, setupTracerProvider_ok lib k _ h1,
        setupMeterProvider_ok lib k _ h2] at h hmem ⊢
      by_cases hk : k = ExporterGRPCType
      · simp only [hk, if_true] at h hmem ⊢
        simp at hmem
        subst hmem
        have := split_at_last (StartupEvent.goServerListen ":8080")
          [.newExporter traceConsoleCall, .newExporter traceGRPCCall, .setTracerProvider,
           .newExporter metricConsoleCall, .newExporter metricGRPCCall, .setMeterProvider,
           .routeGet "/", .logInfo "Server is running"] pre post (by simp) (by simpa using h)
        subst this
        simp
      · simp only [hk, if_false] at h hmem ⊢
        simp at hmem
        subst hmem
        have := split_at_last (StartupEvent.goServerListen ":8080")
          [.newExporter traceConsoleCall, .setTracerProvider,
           .newExporter metricConsoleCall, .setMeterProvider,
           .routeGet "/", .logInfo "Server is running"] pre post (by simp) (by simpa using h)
        subst this
        simp

/-- Witness for `providers_installed_before_listen`: the console kind with
constructors that all succeed. -/
theorem providers_installed_before_listen_witness :
    (mainStartup libAllSucceed ExporterConsoleType).events
      = [.newExporter traceConsoleCall, .setTracerProvider,
         .newExporter metricConsoleCall, .setMeterProvider,
         .routeGet "/", .logInfo "Server is running"]
        ++ StartupEvent.goServerListen ":8080" :: [] ∧
    StartupEvent.setTracerProvider ∈
      [StartupEvent.newExporter traceConsoleCall, .setTracerProvider,
         .newExporter metricConsoleCall, .setMeterProvider,
         .routeGet "/", .logInfo "Server is running"] :=
  ⟨by decide,
   (providers_installed_before_listen libAllSucceed ExporterConsoleType _ [] ":8080"
     (by decide)).1⟩

/-- C10: for every value `r` with `0 ≤ r < 300` that `rand.Intn(300)` can return,
the sleep duration is exactly `(r + 100)` milliseconds, between 100 ms and
399 ms, and neither the addition nor the multiplication leaves the signed
64-bit range. -/
theorem sleep_duration_bounded (r : Int) (h0 : 0 ≤ r) (h1 : r < 300) :
    sleepDuration r = (r + 100) * Millisecond ∧
    100 * Millisecond ≤ sleepDuration r ∧
    sleepDuration r ≤ 399 * Millisecond ∧
    wrapInt64 (r + 100) = r + 100 ∧
    -(2 : Int) ^ 63 ≤ (r + 100) * Millisecond ∧ (r + 100) * Millisecond < (2 : Int) ^ 63 := by
  have e1 : wrapInt64 (r + 100) = r + 100 := by
    unfold wrapInt64
    norm_num
    omega
  have e2 : wrapInt64 ((r + 100) * Millisecond) = (r + 100) * Millisecond := by
    unfold wrapInt64 Millisecond
    norm_num
    omega
  unfold sleepDuration
  rw [e1, e2]
  unfold Millisecond
  norm_num
  refine ⟨?_, ?_, ?_, ?_⟩ <;> omega

/-- Witness for `sleep_duration_bounded` at the largest value, `r = 299`. -/
theorem sleep_duration_bounded_witness :
    (0 : Int) ≤ 299 ∧ (299 : Int) < 300 ∧ sleepDuration 299 = 399 * Millisecond :=
  ⟨by decide, by decide,
   by simpa using (sleep_duration_bounded 299 (by decide) (by decide)).1⟩

/-! ## Theorems: the shutdown sequence -/

theorem inv_init (now : Nat) : Inv (State.init now) := by
  constructor <;> simp [State.init, CoordPc.hasAdded, TaskPc.doneN, CoordPc.launchedCount,
    CoordPc.pastWait]

theorem coordStep_inv (s s1 : State) (h : Inv s) (hex : s.exited = none)
    (hs : coordStep s = some s1) : Inv s1 := by
  obtain ⟨clock, exited, coord, ctx, wg, tr, me, sv, ev⟩ := s
  obtain ⟨h1, h2, h3, h4, h5, h6, h7, h8⟩ := h
  simp only at h1 h2 h3 h4 h5 h6 h7 h8 hex
  subst hex
  cases coord <;>
    simp [coordStep, launchTask, State.setPc] at hs <;>
    (first | subst hs | (obtain ⟨hw, hs⟩ := hs; subst hs)) <;>
    simp [CoordPc.hasAdded, CoordPc.launchedCount, CoordPc.pastWait, TaskPc.doneN] at * <;>
    constructor <;>
    simp [CoordPc.hasAdded, CoordPc.launchedCount, CoordPc.pastWait, TaskPc.doneN, *] <;>
    (split_ifs at h1 ⊢ <;> first | omega | simp_all)

/-- The four ways a shutdown goroutine can move. -/
theorem taskStep_cases (env : ShutdownEnv) (s s1 : State) (t : TaskId)
    (hs : taskStep env s t = some s1) :
    (s.pc t = .launched ∧
      s1 = { s.setPc t .calling with
        events := .invoke t (callContext t s.shutdownCtx) :: s.events }) ∨
    (s.pc t = .calling ∧
      shutdownReturn (env.drain t) (callContext t s.shutdownCtx) s.clock = some .ok ∧
      s.wg - 1 < 0 ∧
      s1 = { s with exited := some 2, events := .exit 2 :: .returned t .ok :: s.events }) ∨
    (s.pc t = .calling ∧
      shutdownReturn (env.drain t) (callContext t s.shutdownCtx) s.clock = some .ok ∧
      ¬ s.wg - 1 < 0 ∧
      s1 = { s.setPc t .done with
        wg := s.wg - 1, events := .wgDone t :: .returned t .ok :: s.events }) ∨
    (s.pc t = .calling ∧ ∃ e,
      shutdownReturn (env.drain t) (callContext t s.shutdownCtx) s.clock = some (.failed e) ∧
      s1 = { s.setPc t .fatal with
        exited := some 1,
        events := .exit 1 :: .logFatal (fatalMessage t) e :: .returned t (.failed e)
          :: s.events }) := by
  unfold taskStep at hs
  split at hs
  · simp at hs
  · simp at hs
    left
    exact ⟨by assumption, hs.symm⟩
  · split at hs
    · simp at hs
    · split at hs
      · simp at hs
        right; left
        exact ⟨by assumption, by assumption, by assumption, hs.symm⟩
      · simp at hs
        right; right; left
        exact ⟨by assumption, by assumption, by assumption, hs.symm⟩
    · simp at hs
      right; right; right
      exact ⟨by assumption, _, by assumption, hs.symm⟩
  · simp at hs
  · simp at hs

theorem taskStep_inv (env : ShutdownEnv) (s s1 : State) (t : TaskId) (h : Inv s)
    (hex : s.exited = none) (hs : taskStep env s t = some s1) : Inv s1 := by
  obtain ⟨clock, exited, coord, ctx, wg, tr, me, sv, ev⟩ := s
  obtain ⟨h1, h2, h3, h4, h5, h6, h7, h8⟩ := h
  simp only at h1 h2 h3 h4 h5 h6 h7 h8 hex
  subst hex
  rcases taskStep_cases env _ _ t hs with ⟨hp, rfl⟩ | ⟨hp, -, hw, rfl⟩ | ⟨hp, -, hw, rfl⟩ |
    ⟨hp, e, -, rfl⟩
  · cases t <;> simp [State.pc] at hp <;> subst hp <;>
      constructor <;> simp_all [State.setPc, TaskPc.doneN]
  · exfalso
    cases t <;> simp [State.pc] at hp <;> subst hp <;> cases coord <;>
      simp_all [CoordPc.launchedCount, CoordPc.hasAdded, TaskPc.doneN] <;>
      (split_ifs at hw <;> omega)
  · cases t <;> simp [State.pc] at hp <;> subst hp <;>
      constructor <;> simp_all [State.setPc, TaskPc.doneN] <;> omega
  · cases t <;> simp [State.pc] at hp <;> subst hp <;>
      constructor <;> simp_all [State.setPc, TaskPc.doneN]

theorem evinv_init (now : Nat) : EvInv (State.init now) := by
  constructor <;> simp [State.init, CoordPc.hasAdded, State.launches, State.invocations,
    State.signals, State.pc, TaskPc.invoked]
  all_goals (intro t; cases t <;> simp)

theorem coordStep_evinv (s s1 : State) (h : Inv s) (g : EvInv s) (hex : s.exited = none)
    (hs : coordStep s = some s1) : EvInv s1 := by
  obtain ⟨clock, exited, coord, ctx, wg, tr, me, sv, ev⟩ := s
  have h2 := h.tr_nl
  have h3 := h.me_nl
  have h4 := h.sv_nl
  clear h
  obtain ⟨g0, g1, g2, g3, g4, g5, g6, g7, g8, g9, g10⟩ := g
  have a1 := g3 .tracer
  have a2 := g3 .meter
  have a3 := g3 .server
  have b1 := g4 .tracer
  have b2 := g4 .meter
  have b3 := g4 .server
  have c1 := g5 .tracer
  have c2 := g5 .meter
  have c3 := g5 .server
  clear g3 g4 g5
  simp only [State.launches, State.invocations, State.signals, State.pc]
    at h2 h3 h4 hex g0 g1 g2 g6 g7 g8 g9 g10 a1 a2 a3 b1 b2 b3 c1 c2 c3
  subst hex
  cases coord <;>
    simp [coordStep, launchTask, State.setPc] at hs <;>
    (first | subst hs | (obtain ⟨hw, hs⟩ := hs; subst hs)) <;>
    simp [CoordPc.launchedCount, CoordPc.hasAdded] at h2 h3 h4 g0 g8 <;>
    (try subst h2) <;> (try subst h3) <;> (try subst h4) <;> (try subst g0) <;>
    refine ⟨?_, ?_, ?_, ?_, ?_, ?_, ?_, ?_, ?_, ?_, ?_⟩
  all_goals first
    | (simp only [State.launches, State.invocations, State.signals]
       intro t
       cases t <;>
         simp only [State.pc, List.countP_cons, a1, a2, a3, b1, b2, b3, c1, c2, c3] <;>
         simp [ShutdownEvent.isLaunchOf, ShutdownEvent.isInvokeOf, ShutdownEvent.isDoneOf,
           TaskPc.invoked])
    | (simp only [List.countP_cons, g1]
       simp [ShutdownEvent.isWgAdd, CoordPc.hasAdded]
       done)
    | (simp [ShutdownEvent.isLogFatal, g9]; done)
    | (simp [g10]; done)
    | (intro n hn
       simp at hn
       first | exact g2 n hn | (rcases hn with rfl | hn; rfl; exact g2 n hn))
    | (intro t c hn
       simp at hn
       first | exact g6 t c hn | (rcases hn with ⟨rfl, rfl⟩ | hn; rfl; exact g6 t c hn))
    | (intro t c hn
       simp at hn
       exact g7 t c hn)
    | (simp; done)
    | (right; exact ⟨_, le_refl _, rfl⟩)
    | (right; simpa using g8)

theorem taskStep_evinv (env : ShutdownEnv) (s s1 : State) (t : TaskId) (h : Inv s)
    (g : EvInv s) (hex : s.exited = none) (hs : taskStep env s t = some s1) : EvInv s1 := by
  obtain ⟨clock, exited, coord, ctx, wg, tr, me, sv, ev⟩ := s
  have h2 := h.tr_nl
  have h3 := h.me_nl
  have h4 := h.sv_nl
  clear h
  obtain ⟨g0, g1, g2, g3, g4, g5, g6, g7, g8, g9, g10⟩ := g
  have a1 := g3 .tracer
  have a2 := g3 .meter
  have a3 := g3 .server
  have b1 := g4 .tracer
  have b2 := g4 .meter
  have b3 := g4 .server
  have c1 := g5 .tracer
  have c2 := g5 .meter
  have c3 := g5 .server
  clear g3 g4 g5
  simp only [State.launches, State.invocations, State.signals, State.pc]
    at h2 h3 h4 hex g0 g1 g2 g6 g7 g8 g9 g10 a1 a2 a3 b1 b2 b3 c1 c2 c3
  subst hex
  rcases taskStep_cases env _ _ t hs with ⟨hp, rfl⟩ | ⟨hp, -, hw, rfl⟩ | ⟨hp, -, hw, rfl⟩ |
    ⟨hp, e, -, rfl⟩ <;>
    cases t <;> simp only [State.pc] at hp <;> subst hp <;>
    simp at h2 h3 h4 <;>
    have g0 : coord ≠ .signalled := (by intro hc; subst hc; simp [CoordPc.launchedCount] at h2 h3 h4) <;>
    refine ⟨?_, ?_, ?_, ?_, ?_, ?_, ?_, ?_, ?_, ?_, ?_⟩
  all_goals first
    | (simp only [State.launches, State.invocations, State.signals]
       intro t
       cases t <;>
         simp only [State.pc, State.setPc, List.countP_cons, a1, a2, a3, b1, b2, b3, c1, c2, c3] <;>
         simp [ShutdownEvent.isLaunchOf, ShutdownEvent.isInvokeOf, ShutdownEvent.isDoneOf,
           TaskPc.invoked]
       done)
    | (simp only [State.setPc, List.countP_cons, g1]
       simp [ShutdownEvent.isWgAdd, CoordPc.hasAdded]
       done)
    | (simp [State.setPc, ShutdownEvent.isLogFatal, g9]; done)
    | (simp [State.setPc, g10]; done)
    | (intro n hn
       simp [State.setPc] at hn
       exact g2 n hn)
    | (intro t c hn
       simp [State.setPc] at hn
       exact g6 t c hn)
    | (intro t c hn
       simp [State.setPc] at hn
       first | exact g7 t c hn | (rcases hn with ⟨rfl, rfl⟩ | hn; rfl; exact g7 t c hn))
    | (simp [State.setPc, g0]; done)
    | (simpa [State.setPc, g0] using g8)

theorem step_inv (env : ShutdownEnv) (s s1 : State) (a : Actor) (h : Inv s) (g : EvInv s)
    (hs : step env s a = some s1) : Inv s1 ∧ EvInv s1 := by
  unfold step at hs
  split at hs
  · simp at hs
  · rename_i hex
    simp at hex
    cases a with
    | coordinator => exact ⟨coordStep_inv s s1 h hex hs, coordStep_evinv s s1 h g hex hs⟩
    | task t => exact ⟨taskStep_inv env s s1 t h hex hs, taskStep_evinv env s s1 t h g hex hs⟩
    | tick d =>
      simp at hs
      subst hs
      refine ⟨⟨h.1, h.2, h.3, h.4, h.5, h.6, h.7, h.8⟩,
        ⟨g.1, g.2, g.3, g.4, g.5, g.6, g.7, g.8, ?_, g.10, g.11⟩⟩
      rcases g.9 with g9 | ⟨t0, ht0, g9⟩
      · exact Or.inl g9
      · exact Or.inr ⟨t0, Nat.le_trans ht0 (Nat.le_add_right _ _), g9⟩

theorem exec_inv (env : ShutdownEnv) (sched : List Actor) :
    ∀ s, Inv s → EvInv s → Inv (exec env s sched) ∧ EvInv (exec env s sched) := by
  induction sched with
  | nil => intro s h g; exact ⟨h, g⟩
  | cons a rest ih =>
    intro s h g
    unfold exec
    cases hs : step env s a with
    | none => exact ih s h g
    | some s1 =>
      have := step_inv env s s1 a h g hs
      exact ih s1 this.1 this.2

theorem reach_inv (env : ShutdownEnv) (now : Nat) (sched : List Actor) :
    Inv (reach env now sched) ∧ EvInv (reach env now sched) :=
  exec_inv env sched _ (inv_init now) (evinv_init now)

/-- Once the process has exited nothing moves any more. -/
theorem exec_exited (env : ShutdownEnv) (sched : List Actor) :
    ∀ s, s.exited.isSome = true → exec env s sched = s := by
  induction sched with
  | nil => intro s _; rfl
  | cons a rest ih =>
    intro s h
    have : step env s a = none := by simp [step, h]
    simp [exec, this, ih s h]

theorem retinv_init (env : ShutdownEnv) (now : Nat) : RetInv env (State.init now) := by
  constructor <;> intro t <;> cases t <;> simp [State.init, State.pc]

theorem coordStep_retinv (env : ShutdownEnv) (s s1 : State) (h : Inv s) (r : RetInv env s)
    (hs : coordStep s = some s1) : RetInv env s1 := by
  obtain ⟨clock, exited, coord, ctx, wg, tr, me, sv, ev⟩ := s
  have h2 := h.tr_nl
  have h3 := h.me_nl
  have h4 := h.sv_nl
  clear h
  obtain ⟨r1, r2⟩ := r
  have x1 := r1 .tracer
  have x2 := r1 .meter
  have x3 := r1 .server
  have y1 := r2 .tracer
  have y2 := r2 .meter
  have y3 := r2 .server
  clear r1 r2
  simp only [State.pc] at h2 h3 h4 x1 x2 x3 y1 y2 y3
  cases coord <;>
    simp [coordStep, launchTask, State.setPc] at hs <;>
    (first | subst hs | (obtain ⟨hw, hs⟩ := hs; subst hs)) <;>
    simp [CoordPc.launchedCount] at h2 h3 h4 <;>
    (try subst h2) <;> (try subst h3) <;> (try subst h4) <;>
    constructor <;> intro t <;> cases t <;> simp only [State.pc] <;> intro hd <;>
    first
      | (exact absurd hd (by decide))
      | exact x1 hd
      | exact x2 hd
      | exact x3 hd
      | exact List.mem_cons_of_mem _ (y1 hd)
      | exact List.mem_cons_of_mem _ (y2 hd)
      | exact List.mem_cons_of_mem _ (y3 hd)
      | exact y1 hd
      | exact y2 hd
      | exact y3 hd

theorem taskStep_retinv (env : ShutdownEnv) (s s1 : State) (t : TaskId) (r : RetInv env s)
    (hs : taskStep env s t = some s1) : RetInv env s1 := by
  obtain ⟨clock, exited, coord, ctx, wg, tr, me, sv, ev⟩ := s
  obtain ⟨r1, r2⟩ := r
  have x1 := r1 .tracer
  have x2 := r1 .meter
  have x3 := r1 .server
  have y1 := r2 .tracer
  have y2 := r2 .meter
  have y3 := r2 .server
  clear r1 r2
  simp only [State.pc] at x1 x2 x3 y1 y2 y3
  rcases taskStep_cases env _ _ t hs with ⟨hp, rfl⟩ | ⟨hp, hr, hw, rfl⟩ | ⟨hp, hr, hw, rfl⟩ |
    ⟨hp, e, hr, rfl⟩ <;>
    cases t <;> simp only [State.pc] at hp <;> subst hp <;>
    constructor <;> intro u <;> cases u <;> simp only [State.pc, State.setPc] <;> intro hd <;>
    first
      | (exact absurd hd (by decide))
      | exact x1 hd
      | exact x2 hd
      | exact x3 hd
      | exact ⟨clock, le_refl _, hr⟩
      | (simp; done)
      | exact List.mem_cons_of_mem _ (y1 hd)
      | exact List.mem_cons_of_mem _ (y2 hd)
      | exact List.mem_cons_of_mem _ (y3 hd)
      | exact List.mem_cons_of_mem _ (List.mem_cons_of_mem _ (y1 hd))
      | exact List.mem_cons_of_mem _ (List.mem_cons_of_mem _ (y2 hd))
      | exact List.mem_cons_of_mem _ (List.mem_cons_of_mem _ (y3 hd))
      | exact List.mem_cons_of_mem _ (List.mem_cons_of_mem _ (List.mem_cons_of_mem _ (y1 hd)))
      | exact List.mem_cons_of_mem _ (List.mem_cons_of_mem _ (List.mem_cons_of_mem _ (y2 hd)))
      | exact List.mem_cons_of_mem _ (List.mem_cons_of_mem _ (List.mem_cons_of_mem _ (y3 hd)))

theorem step_retinv (env : ShutdownEnv) (s s1 : State) (a : Actor) (h : Inv s)
    (r : RetInv env s) (hs : step env s a = some s1) : RetInv env s1 := by
  unfold step at hs
  split at hs
  · simp at hs
  · cases a with
    | coordinator => exact coordStep_retinv env s s1 h r hs
    | task t => exact taskStep_retinv env s s1 t r hs
    | tick d =>
      simp at hs
      subst hs
      refine ⟨?_, r.2⟩
      intro t hd
      obtain ⟨c, hc, hr⟩ := r.1 t hd
      exact ⟨c, Nat.le_trans hc (Nat.le_add_right _ _), hr⟩

theorem exec_retinv (env : ShutdownEnv) (sched : List Actor) :
    ∀ s, Inv s → EvInv s → RetInv env s → RetInv env (exec env s sched) := by
  induction sched with
  | nil => intro s _ _ r; exact r
  | cons a rest ih =>
    intro s h g r
    unfold exec
    cases hs : step env s a with
    | none => exact ih s h g r
    | some s1 =>
      have hg := step_inv env s s1 a h g hs
      exact ih s1 hg.1 hg.2 (step_retinv env s s1 a h r hs)

theorem reach_retinv (env : ShutdownEnv) (now : Nat) (sched : List Actor) :
    RetInv env (reach env now sched) :=
  exec_retinv env sched _ (inv_init now) (evinv_init now) (retinv_init env now)

/-- In a state satisfying the control invariant, a goroutine whose `Shutdown`
call returns nil runs the deferred `wg.Done()` and changes nothing else. -/
theorem task_nil_return_step (env : ShutdownEnv) (s : State) (t : TaskId) (h : Inv s)
    (hex : s.exited = none) (hpc : s.pc t = .calling)
    (hret : shutdownReturn (env.drain t) (callContext t s.shutdownCtx) s.clock = some .ok) :
    step env s (.task t) = some { s.setPc t .done with
      wg := s.wg - 1, events := .wgDone t :: .returned t .ok :: s.events } := by
  have hw : ¬ s.wg - 1 < 0 := by
    have h1 := h.wg_eq
    have h2 := h.tr_nl
    have h3 := h.me_nl
    have h4 := h.sv_nl
    obtain ⟨clock, exited, coord, ctx, wg, tr, me, sv, ev⟩ := s
    simp only at h1 h2 h3 h4
    cases t <;> simp [State.pc] at hpc <;> subst hpc <;> cases coord <;>
      simp_all [CoordPc.launchedCount, CoordPc.hasAdded, TaskPc.doneN] <;>
      (split_ifs <;> omega)
  simp [step, hex, taskStep, hpc, hret, hw]

/-- A step of goroutine `t` that ends with `t` settled is the return of its
`Shutdown` call with nil. -/
theorem task_done_step (env : ShutdownEnv) (s s1 : State) (t : TaskId)
    (hs : step env s (.task t) = some s1) (hd : s1.pc t = .done) :
    s.pc t = .calling ∧
    shutdownReturn (env.drain t) (callContext t s.shutdownCtx) s.clock = some .ok ∧
    s1 = { s.setPc t .done with
      wg := s.wg - 1, events := .wgDone t :: .returned t .ok :: s.events } := by
  unfold step at hs
  split at hs
  · simp at hs
  · simp only at hs
    rcases taskStep_cases env _ _ t hs with ⟨hp, rfl⟩ | ⟨hp, hr, hw, rfl⟩ | ⟨hp, hr, hw, rfl⟩ |
      ⟨hp, e, hr, rfl⟩
    · cases t <;> simp [State.pc, State.setPc] at hd
    · exfalso
      cases t <;> simp only [State.pc] at hp hd <;> simp [hp] at hd
    · exact ⟨hp, hr, rfl⟩
    · cases t <;> simp [State.pc, State.setPc] at hd

/-- C9: the barrier counts exactly the three shutdown goroutines. In every
reachable state the only `wg.Add` is `wg.Add(3)`, executed once; once the
coordinator has run its three `go` statements each goroutine has been launched
exactly once; each goroutine has been launched once unless not yet launched,
has invoked its subsystem's `Shutdown` once if it has got that far and zero
times otherwise, and has signalled the barrier once if it has settled and zero
times otherwise. A goroutine signals the barrier when, and only when, its
`Shutdown` call returns nil: a settled goroutine's call returned nil at some
clock value up to now and that return is on record; the step that settles it is
the return of the call with nil, takes the counter down by one and its signal
count from 0 to 1; and such a return always makes that step. The counter
equals 3 minus the signals received, and the coordinator is past `wg.Wait()`
only when the counter is zero and all three goroutines have settled, each
having signalled once after its call returned. -/
theorem barrier_counts_three_tasks (env : ShutdownEnv) (now : Nat) (sched : List Actor) :
    (∀ n, ShutdownEvent.wgAdd n ∈ (reach env now sched).events → n = 3) ∧
    ((reach env now sched).events.countP ShutdownEvent.isWgAdd
      = if (reach env now sched).coord.hasAdded then 1 else 0) ∧
    ((reach env now sched).coord.launchedCount = 3 →
      ∀ t, (reach env now sched).launches t = 1) ∧
    (∀ t, (reach env now sched).launches t ≤ 1 ∧ (reach env now sched).invocations t ≤ 1 ∧
      (reach env now sched).signals t ≤ 1) ∧
    (∀ t,
      (reach env now sched).launches t
        = (if (reach env now sched).pc t = .notLaunched then 0 else 1) ∧
      (reach env now sched).invocations t
        = (if ((reach env now sched).pc t).invoked then 1 else 0) ∧
      (reach env now sched).signals t
        = (if (reach env now sched).pc t = .done then 1 else 0)) ∧
    (∀ t, (reach env now sched).pc t = .done →
      (reach env now sched).launches t = 1 ∧ (reach env now sched).invocations t = 1 ∧
      (reach env now sched).signals t = 1) ∧
    (∀ t, (reach env now sched).signals t = 1 → (reach env now sched).pc t = .done) ∧
    (∀ t, (reach env now sched).pc t = .done →
      (∃ c, c ≤ (reach env now sched).clock ∧
        shutdownReturn (env.drain t) (callContext t (reach env now sched).shutdownCtx) c
          = some .ok) ∧
      ShutdownEvent.returned t .ok ∈ (reach env now sched).events) ∧
    (∀ t s1, step env (reach env now sched) (.task t) = some s1 → s1.pc t = .done →
      (reach env now sched).pc t = .calling ∧
      shutdownReturn (env.drain t) (callContext t (reach env now sched).shutdownCtx)
        (reach env now sched).clock = some .ok ∧
      s1.wg = (reach env now sched).wg - 1 ∧
      (reach env now sched).signals t = 0 ∧ s1.signals t = 1) ∧
    (∀ t, (reach env now sched).exited = none → (reach env now sched).pc t = .calling →
      shutdownReturn (env.drain t) (callContext t (reach env now sched).shutdownCtx)
        (reach env now sched).clock = some .ok →
      step env (reach env now sched) (.task t)
        = some { (reach env now sched).setPc t .done with
            wg := (reach env now sched).wg - 1,
            events := .wgDone t :: .returned t .ok :: (reach env now sched).events }) ∧
    ((reach env now sched).coord.hasAdded = true →
      (reach env now sched).wg = 3 - (((reach env now sched).signals .tracer : Int)
        + (reach env now sched).signals .meter + (reach env now sched).signals .server)) ∧
    ((reach env now sched).coord.pastWait = true →
      (reach env now sched).wg = 0 ∧
      ∀ t, (reach env now sched).pc t = .done ∧ (reach env now sched).signals t = 1 ∧
        ∃ c, c ≤ (reach env now sched).clock ∧
          shutdownReturn (env.drain t) (callContext t (reach env now sched).shutdownCtx) c
            = some .ok) := by
  obtain ⟨hI, hE⟩ := reach_inv env now sched
  have hR := reach_retinv env now sched
  generalize reach env now sched = s at hI hE hR ⊢
  have hl := hE.cnt_launch
  have hi := hE.cnt_invoke
  have hd := hE.cnt_done
  have hw := hI.wg_eq
  refine ⟨hE.add3, hE.cnt_add, ?_, ?_, fun t => ⟨hl t, hi t, hd t⟩, ?_, ?_,
    fun t ht => ⟨hR.ret_ok t ht, hR.ret_ev t ht⟩, ?_,
    fun t hex hpc hret => task_nil_return_step env s t hI hex hpc hret, ?_, ?_⟩
  · intro h3 t
    rw [hl t]
    have n1 := hI.tr_nl
    have n2 := hI.me_nl
    have n3 := hI.sv_nl
    rw [h3] at n1 n2 n3
    cases t <;> simp [State.pc, n1, n2, n3]
  · intro t
    rw [hl t, hi t, hd t]
    refine ⟨?_, ?_, ?_⟩ <;> split <;> omega
  · intro t ht
    rw [hl t, hi t, hd t]
    simp [ht, TaskPc.invoked]
  · intro t ht
    rw [hd t] at ht
    by_contra hc
    simp [hc] at ht
  · intro t s1 hs hdone
    obtain ⟨hpc, hret, rfl⟩ := task_done_step env s s1 t hs hdone
    have h0 : s.signals t = 0 := by rw [hd t]; simp [hpc]
    refine ⟨hpc, hret, rfl, h0, ?_⟩
    have h0e : List.countP (ShutdownEvent.isDoneOf t) s.events = 0 := h0
    cases t <;>
      simp only [State.signals, List.countP_cons, h0e] <;>
      simp [ShutdownEvent.isDoneOf]
  · intro ha
    rw [hw, hd .tracer, hd .meter, hd .server]
    simp only [ha, State.pc, TaskPc.doneN]
    split_ifs <;> simp
  · intro hp
    obtain ⟨p1, p2, p3⟩ := hI.past hp
    have ha : s.coord.hasAdded = true := by
      cases hc : s.coord <;> simp [hc, CoordPc.pastWait, CoordPc.hasAdded] at hp ⊢
    refine ⟨?_, ?_⟩
    · rw [hw]
      simp [ha, p1, p2, p3, TaskPc.doneN]
    · intro t
      have : s.pc t = .done := by cases t <;> simp [State.pc, p1, p2, p3]
      exact ⟨this, by rw [hd t]; simp [this], hR.ret_ok t this⟩

/-- Witness for `barrier_counts_three_tasks`: when all three goroutines have
returned and the coordinator has passed the wait, each has signalled once, and
the server's `Shutdown` had returned nil. -/
theorem barrier_counts_three_tasks_witness :
    (reach envAllOk 0 schedAllSettle).coord.pastWait = true ∧
    (reach envAllOk 0 schedAllSettle).wg = 0 ∧
    (reach envAllOk 0 schedAllSettle).signals .server = 1 ∧
    ∃ c, c ≤ (reach envAllOk 0 schedAllSettle).clock ∧
      shutdownReturn (envAllOk.drain .server)
        (callContext .server (reach envAllOk 0 schedAllSettle).shutdownCtx) c = some .ok := by
  have h := (barrier_counts_three_tasks envAllOk 0 schedAllSettle).2.2.2.2.2.2.2.2.2.2.2
    (by decide)
  exact ⟨by decide, h.1, (h.2 .server).2.1, (h.2 .server).2.2⟩

/-- C1 (as stated, refuted): the tracer provider's `Shutdown` returns an error
while the other two goroutines have not yet called theirs; the process exits
with status 1, the other two never run and "Server is shutting down!" is never
logged, although everybody was given the chance to move afterwards. -/
theorem shutdown_error_cuts_off_other_tasks :
    (reach envTracerFails 0 schedTracerFirst).exited = some 1 ∧
    (reach envTracerFails 0 schedTracerFirst).tracer = .fatal ∧
    (reach envTracerFails 0 schedTracerFirst).meter = .launched ∧
    (reach envTracerFails 0 schedTracerFirst).server = .launched ∧
    (reach envTracerFails 0 schedTracerFirst).coord = .waiting ∧
    ShutdownEvent.logInfo "Server is shutting down!"
      ∉ (reach envTracerFails 0 schedTracerFirst).events := by
  decide

/-- C1 (amended): in every reachable state of the shutdown sequence, a goroutine
whose `Shutdown` call returns an error logs it with `logger.Fatal` and the
process exits with status 1: the other goroutines and the coordinator are left
where they were and nothing moves afterwards, the coordinator not being past
the wait. A goroutine whose `Shutdown` call returns nil only signals the
barrier: it settles, the counter goes down by one, the return and the
`wg.Done()` are the only new effects, and the other goroutines, the
coordinator, the clock, the context and the exit status are unchanged.
"Server is shutting down!" has been logged only in states where all three
goroutines returned nil and no `logger.Fatal` call was made. -/
theorem shutdown_error_is_fatal (env : ShutdownEnv) (now : Nat) (sched : List Actor) :
    (∀ t e, (reach env now sched).exited = none →
      (reach env now sched).pc t = .calling →
      shutdownReturn (env.drain t) (callContext t (reach env now sched).shutdownCtx)
        (reach env now sched).clock = some (.failed e) →
      ∃ s1, step env (reach env now sched) (.task t) = some s1 ∧
        s1.exited = some 1 ∧
        ShutdownEvent.logFatal (fatalMessage t) e ∈ s1.events ∧
        (∀ u, u ≠ t → s1.pc u = (reach env now sched).pc u) ∧
        s1.coord = (reach env now sched).coord ∧
        s1.coord.pastWait = false ∧
        (∀ rest, exec env s1 rest = s1)) ∧
    (∀ t, (reach env now sched).exited = none →
      (reach env now sched).pc t = .calling →
      shutdownReturn (env.drain t) (callContext t (reach env now sched).shutdownCtx)
        (reach env now sched).clock = some .ok →
      ∃ s1, step env (reach env now sched) (.task t) = some s1 ∧
        s1.pc t = .done ∧
        s1.wg = (reach env now sched).wg - 1 ∧
        s1.events = .wgDone t :: .returned t .ok :: (reach env now sched).events ∧
        (∀ u, u ≠ t → s1.pc u = (reach env now sched).pc u) ∧
        s1.coord = (reach env now sched).coord ∧
        s1.exited = none ∧
        s1.clock = (reach env now sched).clock ∧
        s1.shutdownCtx = (reach env now sched).shutdownCtx) ∧
    (ShutdownEvent.logInfo "Server is shutting down!" ∈ (reach env now sched).events →
      (∀ t, (reach env now sched).pc t = .done) ∧
      (reach env now sched).events.any ShutdownEvent.isLogFatal = false ∧
      (reach env now sched).exited ≠ some 1) := by
  obtain ⟨hI, hE⟩ := reach_inv env now sched
  generalize reach env now sched = s at hI hE ⊢
  constructor
  · intro t e hex hpc hret
    refine ⟨{ s.setPc t .fatal with
        exited := some 1,
        events := .exit 1 :: .logFatal (fatalMessage t) e :: .returned t (.failed e)
          :: s.events }, ?_, rfl, ?_, ?_, ?_, ?_, ?_⟩
    · simp [step, hex, taskStep, hpc, hret]
    · simp
    · intro u hu
      cases t <;> cases u <;> simp [State.pc, State.setPc] at hu ⊢
    · cases t <;> rfl
    · have hc : (s.setPc t .fatal).coord = s.coord := by cases t <;> rfl
      have hnp : s.coord.pastWait ≠ true := by
        intro hp
        obtain ⟨p1, p2, p3⟩ := hI.past hp
        cases t <;> simp [State.pc, p1, p2, p3] at hpc
      simpa [hc] using hnp
    · intro rest
      exact exec_exited env rest _ rfl
  constructor
  · intro t hex hpc hret
    refine ⟨_, task_nil_return_step env s t hI hex hpc hret, ?_, rfl, rfl, ?_, ?_, ?_, ?_, ?_⟩
    · cases t <;> rfl
    · intro u hu
      cases t <;> cases u <;> simp [State.pc, State.setPc] at hu ⊢
    · cases t <;> rfl
    · cases t <;> exact hex
    · cases t <;> rfl
    · cases t <;> rfl
  · intro hlog
    have hc := hE.log_info.1 hlog
    have hp : s.coord.pastWait = true := by
      rcases hc with hc | hc <;> simp [hc, CoordPc.pastWait]
    obtain ⟨p1, p2, p3⟩ := hI.past hp
    have hne : s.exited ≠ some 1 := by
      intro hx
      have := hI.fatal_ex.2 hx
      simp [p1, p2, p3] at this
    refine ⟨?_, ?_, hne⟩
    · intro t
      cases t <;> simp [State.pc, p1, p2, p3]
    · cases hb : s.events.any ShutdownEvent.isLogFatal
      · rfl
      · exact absurd (hE.log_fatal.1 hb) hne

/-- Witness for `shutdown_error_is_fatal`: the tracer goroutine is inside
`tp.Shutdown(ctx)`, which returns an error in one environment and nil in
another. -/
theorem shutdown_error_is_fatal_witness :
    (reach envTracerFails 0 schedTracerCalling).exited = none ∧
    (reach envTracerFails 0 schedTracerCalling).pc .tracer = .calling ∧
    (∃ s1, step envTracerFails (reach envTracerFails 0 schedTracerCalling) (.task .tracer)
        = some s1 ∧ s1.exited = some 1) ∧
    (reach envAllOk 0 schedTracerCalling).pc .tracer = .calling ∧
    (∃ s1, step envAllOk (reach envAllOk 0 schedTracerCalling) (.task .tracer)
        = some s1 ∧ s1.pc .tracer = .done ∧ s1.exited = none) :=
  ⟨by decide, by decide,
   let ⟨s1, h1, h2, _⟩ := (shutdown_error_is_fatal envTracerFails 0 schedTracerCalling).1
     .tracer (.plain "exporter unreachable") (by decide) (by decide) (by decide)
   ⟨s1, h1, h2⟩,
   by decide,
   let ⟨s1, h1, h2, _, _, _, _, h3, _⟩ :=
     (shutdown_error_is_fatal envAllOk 0 schedTracerCalling).2.1
       .tracer (by decide) (by decide) (by decide)
   ⟨s1, h1, h2, h3⟩⟩

/-- C2 (as stated, refuted): the server never finishes draining; both providers
have returned nil; eleven seconds after the signal, past the ten-second
deadline, the coordinator is still blocked in `wg.Wait()` and neither it nor
the server goroutine can move. -/
theorem wait_outlasts_deadline :
    (reach envServerHangs 0 schedPastDeadline).shutdownCtx.deadline = some 10000000000 ∧
    (reach envServerHangs 0 schedPastDeadline).clock = 11000000000 ∧
    (reach envServerHangs 0 schedPastDeadline).exited = none ∧
    (reach envServerHangs 0 schedPastDeadline).tracer = .done ∧
    (reach envServerHangs 0 schedPastDeadline).meter = .done ∧
    (reach envServerHangs 0 schedPastDeadline).server = .calling ∧
    (reach envServerHangs 0 schedPastDeadline).coord = .waiting ∧
    step envServerHangs (reach envServerHangs 0 schedPastDeadline) .coordinator = none ∧
    step envServerHangs (reach envServerHangs 0 schedPastDeadline) (.task .server) = none := by
  decide

/-- C2 (amended): the coordinator's wait ends only through the barrier. In every
reachable state, the coordinator is past `wg.Wait()` only if all three
goroutines have returned nil; while it is blocked in `wg.Wait()` it can move,
after any amount `d` of further elapsed time, exactly when all three goroutines
have returned nil, and it then goes on to the final log line. The deadline of
`shutdownCtx` plays no part in the wait. -/
theorem wait_ends_only_when_all_settled (env : ShutdownEnv) (now : Nat) (sched : List Actor)
    (d : Nat) :
    ((reach env now sched).coord.pastWait = true → ∀ t, (reach env now sched).pc t = .done) ∧
    ((reach env now sched).coord = .waiting → (reach env now sched).exited = none →
      ((step env { reach env now sched with clock := (reach env now sched).clock + d }
          .coordinator).isSome = true ↔ ∀ t, (reach env now sched).pc t = .done) ∧
      ((∀ t, (reach env now sched).pc t = .done) →
        step env (reach env now sched) .coordinator
          = some { reach env now sched with coord := .passedWait })) := by
  obtain ⟨hI, hE⟩ := reach_inv env now sched
  generalize reach env now sched = s at hI hE ⊢
  have hw := hI.wg_eq
  constructor
  · intro hp t
    obtain ⟨p1, p2, p3⟩ := hI.past hp
    cases t <;> simp [State.pc, p1, p2, p3]
  · intro hc hex
    have hall : s.wg = 0 ↔ ∀ t, s.pc t = .done := by
      rw [hw]
      simp only [hc, CoordPc.hasAdded, TaskPc.doneN]
      constructor
      · intro h0 t
        cases t <;> simp only [State.pc] <;> by_contra hne <;>
          simp only [hne, if_false] at h0 <;> split_ifs at h0 <;> omega
      · intro hall
        have p1 := hall .tracer
        have p2 := hall .meter
        have p3 := hall .server
        simp only [State.pc] at p1 p2 p3
        simp [p1, p2, p3]
    constructor
    · rw [← hall]
      simp [step, hex, coordStep, hc]
    · intro h
      have h0 := hall.2 h
      simp [step, hex, coordStep, hc, h0]

/-- Witness for `wait_ends_only_when_all_settled`: all three goroutines have
returned nil and the coordinator, blocked in `wg.Wait()`, moves on. -/
theorem wait_ends_only_when_all_settled_witness :
    (reach envAllOk 0 schedAllReturn).coord = .waiting ∧
    (reach envAllOk 0 schedAllReturn).exited = none ∧
    (∀ t, (reach envAllOk 0 schedAllReturn).pc t = .done) ∧
    step envAllOk (reach envAllOk 0 schedAllReturn) .coordinator
      = some { reach envAllOk 0 schedAllReturn with coord := .passedWait } :=
  ⟨by decide, by decide, fun t => by cases t <;> decide,
   ((wait_ends_only_when_all_settled envAllOk 0 schedAllReturn 0).2 (by decide) (by decide)).2
     (fun t => by cases t <;> decide)⟩

/-- C3 (the code at the failing input): all three goroutines are launched with
`shutdownCtx`, and the tracer and meter goroutines pass it to `Shutdown`, but the
server goroutine calls `server.Shutdown()` with no context. With a server that
never drains, the call is still blocked past the deadline, where the same call
given the context would have returned `context.DeadlineExceeded`. -/
theorem server_shutdown_ignores_shutdown_context :
    callContext .tracer (Context.withTimeout 0 shutdownTimeout)
      = some (Context.withTimeout 0 shutdownTimeout) ∧
    callContext .meter (Context.withTimeout 0 shutdownTimeout)
      = some (Context.withTimeout 0 shutdownTimeout) ∧
    callContext .server (Context.withTimeout 0 shutdownTimeout) = none ∧
    ShutdownEvent.launch .server (Context.withTimeout 0 shutdownTimeout)
      ∈ (reach envServerHangs 0 schedPastDeadline).events ∧
    ShutdownEvent.invoke .server none ∈ (reach envServerHangs 0 schedPastDeadline).events ∧
    shutdownReturn (envServerHangs.drain .server)
      (callContext .server (Context.withTimeout 0 shutdownTimeout)) 11000000000 = none ∧
    shutdownReturn (envServerHangs.drain .server)
      (some (Context.withTimeout 0 shutdownTimeout)) 11000000000
        = some (.failed deadlineExceeded) := by
  decide

end OtelDemo
